import Mathlib

/-!
Verification development for the coinflip game frontend client
(connection/session reconciliation layer).

The definitions below are a shallow embedding of the TypeScript source:
  * `src/hooks/useWebSocket.ts` — the connection manager / event
    normalizer / session facade hook (`useWebSocket`),
  * `src/utils/validation.ts` — input validation helpers,
  * `src/types/game.ts` — the `Room` and `Player` data model.

React state (`room`, `isConnected`, `error`, `reconnectAttempts`) and the
socket ref are modelled as one explicit record `HookState`; each socket
event handler and each facade action becomes a pure function from the
current state (plus the event payload) to the next state together with
the lists of emitted toast notifications and outbound socket events.
JavaScript strings are Lean `String`, JavaScript numbers that the code
compares or stores are Lean `Int`, optional / possibly-undefined fields
are `Option`.
-/

namespace Coinflip

/-- A coin side, the two complementary values "heads" / "tails". -/
inductive Side
  | heads
  | tails
deriving DecidableEq, Repr

/-- Room lifecycle status enum from `src/types/game.ts`:
`waiting | full | playing | flipping | completed`. -/
inductive RoomStatus
  | waiting
  | full
  | playing
  | flipping
  | completed
deriving DecidableEq, Repr

/-- Position of a status in the fixed forward ordering
waiting < full < playing < flipping < completed (used only to state
spec properties about monotonicity; the source has no such function). -/
def statusRank : RoomStatus → Nat
  | .waiting => 0
  | .full => 1
  | .playing => 2
  | .flipping => 3
  | .completed => 4

/-- Per-viewer game outcome carried by the personalized `game_completed`
event: "win" or "lose". -/
inductive GameOutcome
  | win
  | lose
deriving DecidableEq, Repr

/-- Player record (interface `Player` in `src/types/game.ts`). -/
structure Player where
  id : String
  name : String
  choice : Option Side := none
  side : Side
  bet : Option Int := none
  room_id : Option String := none
  socket_id : Option String := none
  is_creator : Option Bool := none
  stake_amount : Option Int := none
  has_paid : Option Bool := none
  joined_at : Option String := none
deriving DecidableEq, Repr

/-- The `winner` field of a room is dynamically typed in the source
(`Player | string`): `coin_flip_result` stores the winner player object,
while `game_completed` stores the string "you" or "opponent". -/
inductive Winner
  | player (p : Player)
  | tag (s : String)
deriving DecidableEq, Repr

/-- Room record (interface `Room` in `src/types/game.ts`), including the
extended properties written by the event handlers. The `game` and
`verification` payload blobs are stored verbatim by the client and never
inspected, so they are modelled as uninterpreted strings. -/
structure Room where
  id : String
  code : String
  creator_side : Side
  stake_amount : Int
  total_pot : Int
  status : RoomStatus
  server_seed : Option String := none
  client_seed : Option String := none
  nonce : Int
  result : Option Side := none
  winner : Option Winner := none
  players : Option (List Player) := none
  created_at : String
  updated_at : String
  personalResult : Option GameOutcome := none
  yourSide : Option Side := none
  winnerSide : Option Side := none
  winnings : Option Int := none
  totalPot : Option Int := none
  game : Option String := none
  verification : Option String := none
  creatorPlayerSide : Option Side := none
  joinedPlayerSide : Option Side := none
deriving DecidableEq, Repr

/-- Toast notification kinds used by the hook via `react-hot-toast`. -/
inductive ToastKind
  | success
  | error
  | loading
  | dismiss
deriving DecidableEq, Repr

/-- A user-facing toast notification; only the kind and the dedup id are
modelled (the human-readable message text is irrelevant to the
properties below). -/
structure Toast where
  kind : ToastKind
  id : String
deriving DecidableEq, Repr

/-- An outbound socket event emitted through `sendEvent` (event name plus
the payload fields the facade actions actually send). -/
structure OutEvent where
  event : String
  code : Option String := none
  playerName : Option String := none
  side : Option Side := none
deriving DecidableEq, Repr

/-- The state owned by the `useWebSocket` hook: the React state variables
`room`, `isConnected`, `error`, `reconnectAttempts`, plus whether the
socket ref currently holds a live socket object (`socket.current`). -/
structure HookState where
  room : Option Room := none
  isConnected : Bool := false
  error : Option String := none
  reconnectAttempts : Nat := 0
  socketAlive : Bool := false
deriving DecidableEq, Repr

/-- `SOCKET_CONFIG.MAX_RECONNECT_ATTEMPTS` from `useWebSocket.ts`. -/
def MAX_RECONNECT_ATTEMPTS : Nat := 5

/-- `SOCKET_CONFIG.RECONNECT_DELAY` (milliseconds) from `useWebSocket.ts`. -/
def RECONNECT_DELAY : Nat := 3000

/-! ## Connection lifecycle (`connectSocket` event handlers, `useWebSocket.ts`) -/

/-- Embedding of the socket `connect` handler: sets `isConnected`,
clears the error, resets the reconnect attempt counter, and shows the
appropriate success / dismiss toasts (an outbound `ping` is also sent;
it is returned as the third component). -/
def handleConnect (st : HookState) : HookState × List Toast × List OutEvent :=
  let toasts :=
    if st.reconnectAttempts > 0 then
      [⟨ToastKind.success, "connection-success"⟩]
    else
      [⟨ToastKind.dismiss, "force-reconnect"⟩,
       ⟨ToastKind.dismiss, "auto-reconnect-menu"⟩,
       ⟨ToastKind.success, "connection-success"⟩]
  ({ st with isConnected := true, error := none, reconnectAttempts := 0 },
   toasts,
   if st.socketAlive then [{ event := "ping" }] else [])

/-- Embedding of the socket `disconnect` handler. `reason` is the raw
disconnect reason string from socket.io. Returns the next state, the
emitted toasts, and whether a reconnect timer was scheduled
(`setTimeout(connectSocket, RECONNECT_DELAY)`). -/
def handleDisconnect (st : HookState) (reason : String) :
    HookState × List Toast × Bool :=
  let st1 := { st with isConnected := false }
  let criticalToasts :=
    match st.room with
    | some r => if r.status ≠ RoomStatus.completed then
        [⟨ToastKind.error, "critical-disconnect"⟩] else []
    | none => []
  if reason = "io server disconnect" then
    match st.room with
    | some r =>
      if r.status = RoomStatus.completed then
        (st1, criticalToasts, false)
      else
        ({ st1 with error := some "Disconnected by server. Game may have ended." },
         criticalToasts, false)
    | none =>
      ({ st1 with error := some "Disconnected by server. Game may have ended." },
       criticalToasts, false)
  else if reason = "io client disconnect" then
    (st1, criticalToasts, false)
  else if st.reconnectAttempts < MAX_RECONNECT_ATTEMPTS then
    ({ st1 with reconnectAttempts := st.reconnectAttempts + 1 },
     criticalToasts ++ [⟨ToastKind.loading, "reconnecting"⟩], true)
  else
    ({ st1 with error := some "Connection failed. Please refresh the page." },
     criticalToasts, false)

/-- One unplanned (transport-level) disconnect: `handleDisconnect` with a
reason that is neither "io server disconnect" nor "io client disconnect".
Returns the next state and whether a reconnect was scheduled. -/
def stepUnplannedDisconnect (st : HookState) : HookState × Bool :=
  let r := handleDisconnect st "transport close"
  (r.1, r.2.2)

/-- Iterate `n` consecutive unplanned disconnects, keeping only the state. -/
def runUnplanned : HookState → Nat → HookState
  | st, 0 => st
  | st, n + 1 => runUnplanned (stepUnplannedDisconnect st).1 n

/-- Embedding of `forceReconnect`: when the hook believes it is
disconnected, reset the attempt counter and call `connectSocket` (the
boolean reports whether `connectSocket` was invoked). -/
def forceReconnect (st : HookState) : HookState × Bool × List Toast :=
  if st.isConnected then
    (st, false, [])
  else
    ({ st with reconnectAttempts := 0 }, true,
     [⟨ToastKind.loading, "force-reconnect"⟩])

/-- Embedding of `clearRoom`: clear room state without disconnecting. -/
def clearRoom (st : HookState) : HookState :=
  { st with room := none, error := none }

/-- Embedding of `disconnect`: cancel timers, close and drop the socket,
and reset the full snapshot. -/
def disconnect (st : HookState) : HookState :=
  { st with socketAlive := false, isConnected := false, room := none,
            error := none, reconnectAttempts := 0 }

/-! ## Outbound actions (`sendEvent`, `joinRoom`, `createRoom`) -/

/-- JavaScript `s.toUpperCase()` (ASCII model, as produced and consumed
by this client), defined by mapping over the character list so that it
reduces by computation. -/
def jsToUpperCase (s : String) : String :=
  String.mk (s.data.map Char.toUpper)

/-- JavaScript `s.toLowerCase()` (ASCII model). -/
def jsToLowerCase (s : String) : String :=
  String.mk (s.data.map Char.toLower)

/-- JavaScript `s.trim()`: strip leading and trailing whitespace. -/
def jsTrim (s : String) : String :=
  String.mk (((s.data.dropWhile Char.isWhitespace).reverse.dropWhile
    Char.isWhitespace).reverse)

/-- Embedding of `sendEvent`: emits the event only when the socket ref is
non-null and connected; otherwise sets the "Not connected to server"
error and emits nothing. -/
def sendEvent (st : HookState) (ev : OutEvent) :
    HookState × List OutEvent × List Toast :=
  if st.socketAlive && st.isConnected then
    (st, [ev], [])
  else
    ({ st with error := some "Not connected to server" }, [],
     [⟨ToastKind.error, "not-connected"⟩])

/-- Local validation message for a malformed room code in `joinRoom`. -/
def invalidCodeMsg : String :=
  "Invalid room code format. Room code must be 6 characters."

/-- Local validation message when already in the requested room. -/
def alreadyInRoomMsg : String := "You are already in this room."

/-- Embedding of the `joinRoom` facade action. The JavaScript guard
`!code || code.length !== 6` coincides with `code.length ≠ 6` since the
empty string has length 0. On the happy path the error is first cleared
(`setError(null)`) and the uppercased code is handed to `sendEvent`. -/
def joinRoom (st : HookState) (code : String) (playerName : Option String) :
    HookState × List OutEvent × List Toast :=
  if code.length ≠ 6 then
    ({ st with error := some invalidCodeMsg }, [],
     [⟨ToastKind.error, "invalid-code"⟩])
  else if (match st.room with
           | some r => r.code = jsToUpperCase code
           | none => false : Bool) then
    ({ st with error := some alreadyInRoomMsg }, [],
     [⟨ToastKind.error, "already-in-room"⟩])
  else
    let upperCode := jsToUpperCase code
    sendEvent { st with error := none }
      { event := "join_room", code := some upperCode, playerName := playerName }

/-- Embedding of the `createRoom` facade action. -/
def createRoom (st : HookState) (side : Side) (playerName : Option String) :
    HookState × List OutEvent × List Toast :=
  sendEvent st { event := "create_room", side := some side, playerName := playerName }

/-! ## Inbound game event handlers (Event Normalizer) -/

/-- Embedding of the `room_status` handler: `setRoom(data)` with the raw
payload, unconditionally. -/
def processRoomStatus (st : HookState) (data : Room) : HookState :=
  { st with room := some data }

/-- Folding `processRoomStatus` over a sequence of inbound `room_status`
payloads, in arrival order. -/
def processRoomStatusSeq (st : HookState) (ds : List Room) : HookState :=
  ds.foldl processRoomStatus st

/-- Embedding of the `coin_flip_started` handler:
`setRoom(prev => prev ? { ...prev, status: "flipping" } : null)`. -/
def processCoinFlipStarted (st : HookState) : HookState × List Toast :=
  ({ st with room := st.room.map (fun r => { r with status := RoomStatus.flipping }) },
   [⟨ToastKind.loading, "coin-flip-started"⟩])

/-- The placeholder room shell fabricated by the `coin_flip_result` and
`game_completed` handlers when `roomRef.current` is null. The source
object literal omits `status` and the handler immediately overwrites it
with "completed", so the shell records `completed` directly; `now` is
the `new Date().toISOString()` timestamp. -/
def fallbackRoomShell (now : String) : Room :=
  { id := "temp-id", code := "RESULT", creator_side := Side.heads,
    stake_amount := 10, total_pot := 20, nonce := 0,
    created_at := now, updated_at := now, status := RoomStatus.completed }

/-- Payload of the broadcast `coin_flip_result` event. -/
structure CoinFlipResultData where
  flipResult : Side
  winnerSide : Side
  winnerPlayer : Player
  totalPot : Int
  players : Option (List Player) := none
  game : Option String := none
  verification : Option String := none
deriving DecidableEq, Repr

/-- Embedding of the `coin_flip_result` handler: always produces a room
object (falling back to the placeholder shell), marks it completed,
records the flip result and winner data, and clears the error. -/
def processCoinFlipResult (st : HookState) (d : CoinFlipResultData)
    (now : String) : HookState × List Toast :=
  let currentRoom := st.room.getD (fallbackRoomShell now)
  let updatedRoom :=
    { currentRoom with
      status := RoomStatus.completed,
      result := some d.flipResult,
      winnerSide := some d.winnerSide,
      winner := some (Winner.player d.winnerPlayer),
      totalPot := some d.totalPot,
      players := d.players,
      game := d.game,
      verification := d.verification }
  ({ st with room := some updatedRoom, error := none },
   [⟨ToastKind.success, "coin-result"⟩])

/-- Payload of the personalized `game_completed` event. -/
structure GameCompletedData where
  result : GameOutcome
  flipResult : Side
  yourSide : Side
  winnerSide : Side
  winnings : Int
  game : Option String := none
  verification : Option String := none
deriving DecidableEq, Repr

/-- Embedding of the `game_completed` handler: always produces a room
object (falling back to the placeholder shell), marks it completed,
records the personalized outcome and winnings, and clears the error. -/
def processGameCompleted (st : HookState) (d : GameCompletedData)
    (now : String) : HookState × List Toast :=
  let currentRoom := st.room.getD (fallbackRoomShell now)
  let personalizedResult :=
    { currentRoom with
      status := RoomStatus.completed,
      result := some d.flipResult,
      personalResult := some d.result,
      yourSide := some d.yourSide,
      winnerSide := some d.winnerSide,
      winnings := some d.winnings,
      totalPot := some (if d.winnings > 0 then d.winnings else 20),
      game := d.game,
      verification := d.verification,
      winner := some (Winner.tag (if d.result = GameOutcome.win then "you" else "opponent")) }
  ({ st with room := some personalizedResult, error := none },
   if d.result = GameOutcome.win then
     [⟨ToastKind.success, "personal-game-result"⟩]
   else
     [⟨ToastKind.error, "personal-game-result"⟩])

/-- Payload of the `room_ready` event. The backend either nests the room
(`{ room, players }`), or the payload itself is room-shaped (the handler
then feeds the payload object straight into `setRoom`). -/
inductive RoomReadyPayload
  | nested (room : Room) (players : Option (List Player))
  | flat (room : Room)
deriving DecidableEq, Repr

/-- The `data.players` field as the `room_ready` handler reads it. -/
def RoomReadyPayload.playersField : RoomReadyPayload → Option (List Player)
  | .nested _ ps => ps
  | .flat r => r.players

/-- Embedding of the `room_ready` handler: when exactly two players are
reported it verifies their sides, emitting the "same-side-error" error
toast for identical sides (or the "sides-verified" success toast
otherwise); then it records the room and clears the error, and shows the
"room-ready" auto-start toast. The 8 second auto-start fallback timer
only logs / toasts later and touches no snapshot state. -/
def processRoomReady (st : HookState) (data : RoomReadyPayload) :
    HookState × List Toast :=
  let sideToasts :=
    match data.playersField with
    | some [p1, p2] =>
      if p1.side = p2.side then [⟨ToastKind.error, "same-side-error"⟩]
      else [⟨ToastKind.success, "sides-verified"⟩]
    | _ => []
  let roomData :=
    match data with
    | .nested r ps => { r with players := ps }
    | .flat r => r
  ({ st with room := some roomData, error := none },
   sideToasts ++ [⟨ToastKind.success, "room-ready"⟩])

/-! ## Error event handlers (`error` / `join_room_error`) -/

/-- Payload of an inbound error event: null / undefined, a bare string,
or a JavaScript object modelled as its key / value list (the handlers
only ever read string-valued fields; the numeric `statusCode` 409 is
modelled as the string "409"). -/
inductive ErrorData
  | null
  | str (s : String)
  | obj (fields : List (String × String))
deriving DecidableEq, Repr

/-- Field access `data.k` on an error payload object. -/
def lookupField (fs : List (String × String)) (k : String) : Option String :=
  (fs.find? (fun p => p.1 = k)).map (fun p => p.2)

/-- Field access `data.k` keeping only truthy (non-empty) string values,
as JavaScript `data.k || ...` chains do. -/
def truthyField (fs : List (String × String)) (k : String) : Option String :=
  match lookupField fs k with
  | some s => if s = "" then none else some s
  | none => none

/-- JavaScript `s.includes(pat)` on strings. -/
def strContains (s pat : String) : Bool :=
  decide (pat.toList <:+: s.toList)

/-- Canned message for a room that was not found. -/
def roomNotFoundMsg : String :=
  "Room not found. Please check the room code and try again."

/-- Canned message for a full room. -/
def roomFullLongMsg : String :=
  "Room is already full (2/2 players). Please try a different room."

/-- The message-classification logic of the `error` handler for object
payloads: best-effort inspection of message / error / msg / description
and of the `type` field, mapping known categories to friendly text. -/
def classifyServerError (fields : List (String × String)) : String :=
  let possibleMessage :=
    truthyField fields "message" <|> truthyField fields "error" <|>
    truthyField fields "msg" <|> truthyField fields "description"
  let typeBranch :=
    match truthyField fields "type" with
    | some t =>
      if t = "validation_error" then
        "Invalid input provided. Please check your room code and try again."
      else if t = "room_not_found" then roomNotFoundMsg
      else if t = "join_room_error" then "Room is full. Cannot join this room."
      else if t = "room_full" then "Room is full. Cannot join this room."
      else "Server error: " ++ t
    | none => "Unknown server error occurred"
  match possibleMessage with
  | some m =>
    if jsTrim m = "" then typeBranch
    else
      let message := jsToLowerCase m
      if lookupField fields "type" == some "join_room_error" then
        if strContains message "not found" || strContains message "not available" then
          roomNotFoundMsg
        else if strContains message "full" then roomFullLongMsg
        else m
      else if strContains message "not found" || strContains message "not available" then
        roomNotFoundMsg
      else if strContains message "full" then roomFullLongMsg
      else m
  | none => typeBranch

/-- Embedding of the `error` handler: empty payloads (null / undefined,
empty string, object with no keys) are silently ignored; otherwise the
classified message is toasted and stored in the error state. -/
def processError (st : HookState) (data : ErrorData) : HookState × List Toast :=
  match data with
  | .null => (st, [])
  | .str s =>
    if s = "" then (st, [])
    else ({ st with error := some s }, [⟨ToastKind.error, "websocket-error"⟩])
  | .obj [] => (st, [])
  | .obj fields =>
    let msg := classifyServerError fields
    ({ st with error := some msg }, [⟨ToastKind.error, "websocket-error"⟩])

/-- Embedding of the `join_room_error` handler: empty payloads are
silently ignored; otherwise the join-specific classification produces
one message, which is toasted and stored in the error state. -/
def processJoinRoomError (st : HookState) (data : ErrorData) :
    HookState × List Toast :=
  match data with
  | .null => (st, [])
  | .str s =>
    if s = "" then (st, [])
    else ({ st with error := some s }, [⟨ToastKind.error, "join-room-error"⟩])
  | .obj [] => (st, [])
  | .obj fields =>
    let typeIsJoinError : Bool := lookupField fields "type" == some "join_room_error"
    let msg :=
      match (if typeIsJoinError then truthyField fields "message" else none) with
      | some m =>
        let message := jsToLowerCase m
        if strContains message "full" then roomFullLongMsg
        else if strContains message "not found" || strContains message "not available" then
          roomNotFoundMsg
        else m
      | none =>
        if lookupField fields "statusCode" == some "409"
            || (match lookupField fields "message" with
                | some m => strContains (jsToLowerCase m) "full"
                | none => false) then
          roomFullLongMsg
        else
          match truthyField fields "message" with
          | some m => m
          | none =>
            match truthyField fields "error" with
            | some e => e
            | none => "Failed to join room"
    ({ st with error := some msg }, [⟨ToastKind.error, "join-room-error"⟩])

/-! ## Sample data for concrete witnesses -/

/-- A concrete well-formed room used in concrete witnesses. -/
def sampleRoom : Room :=
  { id := "33333333-3333-3333-3333-333333333333", code := "ABC123",
    creator_side := Side.heads, stake_amount := 10, total_pot := 20,
    nonce := 0, status := RoomStatus.waiting,
    created_at := "2026-01-01T00:00:00Z", updated_at := "2026-01-01T00:00:00Z" }

/-- A concrete player used in concrete witnesses. -/
def samplePlayer (nm : String) (sd : Side) : Player :=
  { id := nm, name := nm, side := sd }

/-- A concrete personalized completion payload with a winning result. -/
def sampleWinData : GameCompletedData :=
  { result := GameOutcome.win, flipResult := Side.heads,
    yourSide := Side.heads, winnerSide := Side.heads, winnings := 20 }

/-- A concrete broadcast flip-result payload. -/
def sampleFlipData : CoinFlipResultData :=
  { flipResult := Side.tails, winnerSide := Side.tails,
    winnerPlayer := samplePlayer "Bob" Side.tails, totalPot := 20 }

/-! ## Claim theorems -/

/-- One unplanned disconnect below the retry cap increments the attempt
counter and schedules a reconnect. -/
theorem stepUnplanned_lt (st : HookState)
    (h : st.reconnectAttempts < MAX_RECONNECT_ATTEMPTS) :
    (stepUnplannedDisconnect st).1 =
      { st with isConnected := false,
                reconnectAttempts := st.reconnectAttempts + 1 } ∧
    (stepUnplannedDisconnect st).2 = true := by
  constructor <;> simp [stepUnplannedDisconnect, handleDisconnect, h]

/-- One unplanned disconnect at (or beyond) the retry cap schedules no
reconnect, surfaces the terminal error, and keeps the counter. -/
theorem stepUnplanned_cap (st : HookState)
    (h : ¬ st.reconnectAttempts < MAX_RECONNECT_ATTEMPTS) :
    (stepUnplannedDisconnect st).2 = false ∧
    (stepUnplannedDisconnect st).1.error =
      some "Connection failed. Please refresh the page." ∧
    (stepUnplannedDisconnect st).1.reconnectAttempts = st.reconnectAttempts := by
  refine ⟨?_, ?_, ?_⟩ <;> simp [stepUnplannedDisconnect, handleDisconnect, h]

/-- Running `n` unplanned disconnects while staying within the cap adds
`n` to the attempt counter. -/
theorem runUnplanned_attempts (n : Nat) : ∀ st : HookState,
    st.reconnectAttempts + n ≤ MAX_RECONNECT_ATTEMPTS →
    (runUnplanned st n).reconnectAttempts = st.reconnectAttempts + n := by
  induction n with
  | zero => intro st _; simp [runUnplanned]
  | succ n ih =>
    intro st h
    have hlt : st.reconnectAttempts < MAX_RECONNECT_ATTEMPTS := by
      unfold MAX_RECONNECT_ATTEMPTS at h ⊢; omega
    obtain ⟨h1, -⟩ := stepUnplanned_lt st hlt
    show (runUnplanned (stepUnplannedDisconnect st).1 n).reconnectAttempts = _
    rw [h1]
    have hih := ih
      { st with isConnected := false,
                reconnectAttempts := st.reconnectAttempts + 1 }
      (by simp; unfold MAX_RECONNECT_ATTEMPTS at h ⊢; omega)
    simp at hih
    omega

/-- Claim C4: starting from the state right after a successful connect
(where the attempt counter is reset to zero), 5 consecutive unplanned
disconnects drive the counter to the cap of 5; any further unplanned
disconnect schedules no reconnect, surfaces the terminal
connection-failure error, and leaves the counter at the cap (so a 6th
automatic attempt is never scheduled); and `forceReconnect` invoked
while disconnected resets the counter to zero and invokes
`connectSocket` regardless of the cap state. -/
theorem reconnect_cap_and_forceReconnect (st0 : HookState) :
    (runUnplanned (handleConnect st0).1 5).reconnectAttempts = 5 ∧
    (stepUnplannedDisconnect (runUnplanned (handleConnect st0).1 5)).2 = false ∧
    (stepUnplannedDisconnect (runUnplanned (handleConnect st0).1 5)).1.error =
      some "Connection failed. Please refresh the page." ∧
    (∀ st : HookState, MAX_RECONNECT_ATTEMPTS ≤ st.reconnectAttempts →
      (stepUnplannedDisconnect st).2 = false ∧
      (stepUnplannedDisconnect st).1.reconnectAttempts = st.reconnectAttempts) ∧
    (∀ st : HookState, st.isConnected = false →
      (forceReconnect st).1.reconnectAttempts = 0 ∧
      (forceReconnect st).2.1 = true) := by
  have hA : (handleConnect st0).1.reconnectAttempts = 0 := rfl
  have h5 : (runUnplanned (handleConnect st0).1 5).reconnectAttempts = 5 := by
    have := runUnplanned_attempts 5 (handleConnect st0).1 (by rw [hA]; decide)
    rwa [hA] at this
  have hcap := stepUnplanned_cap (runUnplanned (handleConnect st0).1 5)
    (by rw [h5]; decide)
  refine ⟨h5, hcap.1, hcap.2.1, ?_, ?_⟩
  · intro st hst
    have := stepUnplanned_cap st (by unfold MAX_RECONNECT_ATTEMPTS at hst ⊢; omega)
    exact ⟨this.1, this.2.2⟩
  · intro st hst
    constructor <;> simp [forceReconnect, hst]

/-- Concrete witness for `reconnect_cap_and_forceReconnect`: the default
initial state, and a disconnected state sitting at the cap. -/
theorem reconnect_cap_and_forceReconnect_witness :
    (runUnplanned (handleConnect {}).1 5).reconnectAttempts = 5 ∧
    (stepUnplannedDisconnect { reconnectAttempts := 5 }).2 = false ∧
    (forceReconnect { reconnectAttempts := 5 }).1.reconnectAttempts = 0 ∧
    (forceReconnect { reconnectAttempts := 5 }).2.1 = true := by
  obtain ⟨h1, -, -, h4, h5⟩ := reconnect_cap_and_forceReconnect {}
  exact ⟨h1, (h4 { reconnectAttempts := 5 } (by decide)).1,
         (h5 { reconnectAttempts := 5 } rfl).1,
         (h5 { reconnectAttempts := 5 } rfl).2⟩

/-- A connected snapshot with no room, used as a base state for the
outbound-action witnesses. -/
def connectedEmptyState : HookState :=
  { isConnected := true, socketAlive := true }

/-- Claim C7 counterexample: the input " ABC12" has length 6 and passes
the local checks, but the outbound `join_room` event carries the code
" ABC12" — uppercased yet not trimmed — which differs from
trim(uppercase(input)) = "ABC12". -/
theorem joinRoom_does_not_trim :
    " ABC12".length = 6 ∧
    (joinRoom connectedEmptyState " ABC12" none).2.1 =
      [{ event := "join_room", code := some " ABC12" }] ∧
    " ABC12" ≠ jsTrim (jsToUpperCase " ABC12") := by
  refine ⟨by decide, by decide, by decide⟩

/-- Claim C7 (amended): for every code of length 6 that passes the local
checks while connected, the outbound `join_room` event carries the code
converted to uppercase, with no whitespace trimming applied. -/
theorem joinRoom_forwards_uppercase_only (st : HookState) (code : String)
    (name : Option String) (h6 : code.length = 6)
    (hroom : ∀ r, st.room = some r → ¬ r.code = jsToUpperCase code)
    (hsock : st.socketAlive = true) (hconn : st.isConnected = true) :
    (joinRoom st code name).2.1 =
      [{ event := "join_room", code := some (jsToUpperCase code),
         playerName := name }] := by
  unfold joinRoom sendEvent
  cases hst : st.room with
  | none => simp [h6, hst, hsock, hconn]
  | some r => simp [h6, hst, hsock, hconn, hroom r hst]

/-- Concrete witness for `joinRoom_forwards_uppercase_only`: the lowercase
code "abc123" is forwarded as "ABC123". -/
theorem joinRoom_forwards_uppercase_only_witness :
    (joinRoom connectedEmptyState "abc123" none).2.1 =
      [{ event := "join_room", code := some (jsToUpperCase "abc123") }] :=
  joinRoom_forwards_uppercase_only connectedEmptyState "abc123" none
    (by decide) (fun _ hr => nomatch hr) rfl rfl

/-- Claim C5: after processing a `game_completed` personalized event whose
payload has result "win", the snapshot records personal outcome "win",
winnings equal to the amount reported in the event payload, and room
status completed. -/
theorem gameCompleted_win_records (st : HookState) (d : GameCompletedData)
    (now : String) (h : d.result = GameOutcome.win) :
    ∃ r, (processGameCompleted st d now).1.room = some r ∧
      r.personalResult = some GameOutcome.win ∧
      r.winnings = some d.winnings ∧
      r.status = RoomStatus.completed := by
  refine ⟨_, rfl, ?_, rfl, rfl⟩
  simp [h]

/-- Concrete witness for `gameCompleted_win_records`: an empty snapshot
processing `sampleWinData`. -/
theorem gameCompleted_win_records_witness :
    ∃ r, (processGameCompleted {} sampleWinData "2026-01-02T00:00:00Z").1.room = some r ∧
      r.personalResult = some GameOutcome.win ∧
      r.winnings = some sampleWinData.winnings ∧
      r.status = RoomStatus.completed :=
  gameCompleted_win_records {} sampleWinData "2026-01-02T00:00:00Z" rfl

/-- Claim C6: after any `coin_flip_result` or `game_completed` event, the
snapshot room is non-null with status completed and the event result
recorded; when no prior room exists the fabricated placeholder shell
(id "temp-id", code "RESULT") is used instead of leaving the room null. -/
theorem terminal_events_fabricate_room (st : HookState) (dc : CoinFlipResultData)
    (dg : GameCompletedData) (now : String) :
    (∃ r, (processCoinFlipResult st dc now).1.room = some r ∧
       r.status = RoomStatus.completed ∧ r.result = some dc.flipResult) ∧
    (∃ r, (processGameCompleted st dg now).1.room = some r ∧
       r.status = RoomStatus.completed ∧ r.result = some dg.flipResult) ∧
    (st.room = none →
      ∃ r, (processCoinFlipResult st dc now).1.room = some r ∧
        r.id = "temp-id" ∧ r.code = "RESULT") ∧
    (st.room = none →
      ∃ r, (processGameCompleted st dg now).1.room = some r ∧
        r.id = "temp-id" ∧ r.code = "RESULT") := by
  refine ⟨⟨_, rfl, rfl, rfl⟩, ⟨_, rfl, rfl, rfl⟩, ?_, ?_⟩ <;>
    intro h <;> exact ⟨_, rfl, by simp [h, fallbackRoomShell], by simp [h, fallbackRoomShell]⟩

/-- Concrete witness for `terminal_events_fabricate_room`: the empty
snapshot (room null) processing the sample payloads. -/
theorem terminal_events_fabricate_room_witness :
    (∃ r, (processCoinFlipResult {} sampleFlipData "t").1.room = some r ∧
       r.status = RoomStatus.completed ∧ r.result = some sampleFlipData.flipResult) ∧
    (∃ r, (processCoinFlipResult {} sampleFlipData "t").1.room = some r ∧
       r.id = "temp-id" ∧ r.code = "RESULT") ∧
    (∃ r, (processGameCompleted {} sampleWinData "t").1.room = some r ∧
       r.id = "temp-id" ∧ r.code = "RESULT") :=
  ⟨(terminal_events_fabricate_room {} sampleFlipData sampleWinData "t").1,
   (terminal_events_fabricate_room {} sampleFlipData sampleWinData "t").2.2.1 rfl,
   (terminal_events_fabricate_room {} sampleFlipData sampleWinData "t").2.2.2 rfl⟩

/-- A snapshot already holding a completed room (used to exhibit status
regression on a stale `room_status` event). -/
def completedState : HookState :=
  { room := some { sampleRoom with status := RoomStatus.completed },
    isConnected := true, socketAlive := true }

/-- A stale `room_status` payload carrying the earliest status. -/
def staleWaitingRoom : Room :=
  { sampleRoom with status := RoomStatus.waiting }

/-- Claim C1 counterexample: the `room_status` handler overwrites the
snapshot unconditionally, so an event carrying status waiting processed
over a snapshot already at status completed regresses the recorded
status (it is not a no-op), refuting monotonicity. -/
theorem roomStatus_can_regress :
    completedState.room.map Room.status = some RoomStatus.completed ∧
    (processRoomStatus completedState staleWaitingRoom).room.map Room.status =
      some RoomStatus.waiting ∧
    statusRank RoomStatus.waiting < statusRank RoomStatus.completed :=
  ⟨rfl, rfl, by decide⟩

/-- Claim C1 (amended): the `room_status` handler records the event
payload wholesale, so after any nonempty sequence of inbound
`room_status` events the snapshot room equals the last event payload —
regardless of ordering, a stale event is applied, not ignored. -/
theorem roomStatus_last_event_wins (ds : List Room) (st : HookState)
    (h : ds ≠ []) :
    (processRoomStatusSeq st ds).room = ds.getLast? := by
  induction ds generalizing st with
  | nil => exact absurd rfl h
  | cons d ds ih =>
    cases ds with
    | nil => rfl
    | cons d2 ds2 =>
      rw [List.getLast?_cons_cons]
      exact ih (processRoomStatus st d) (List.cons_ne_nil d2 ds2)

/-- Concrete witness for `roomStatus_last_event_wins`: processing the
stale waiting payload and then a completed payload ends at completed. -/
theorem roomStatus_last_event_wins_witness :
    (processRoomStatusSeq {}
        [staleWaitingRoom, { sampleRoom with status := RoomStatus.completed }]).room =
      some { sampleRoom with status := RoomStatus.completed } :=
  roomStatus_last_event_wins
    [staleWaitingRoom, { sampleRoom with status := RoomStatus.completed }] {}
    (List.cons_ne_nil _ _)

/-- A `room_ready` payload reporting two participants on the same side. -/
def sameSidePayload : RoomReadyPayload :=
  RoomReadyPayload.nested { sampleRoom with status := RoomStatus.full }
    (some [samplePlayer "Alice" Side.heads, samplePlayer "Bob" Side.heads])

/-- A snapshot carrying a previous error message. -/
def erroredState : HookState :=
  { room := some sampleRoom, isConnected := true, socketAlive := true,
    error := some "previous error" }

/-- Claim C2 counterexample: after a `room_ready` event reporting two
participants with identical sides, the handler clears the error state
(`safeSetError(null)`), so the snapshot error field is none — the
anomaly lives only in the emitted toast, not in the snapshot. -/
theorem roomReady_sameSides_error_is_none :
    (processRoomReady erroredState sameSidePayload).1.error = none ∧
    (processRoomReady erroredState sameSidePayload).2 =
      [⟨ToastKind.error, "same-side-error"⟩, ⟨ToastKind.success, "room-ready"⟩] :=
  ⟨rfl, rfl⟩

/-- Claim C2 (amended): after a `room_ready` event reporting exactly two
participants with identical sides, the anomaly is surfaced as the
"same-side-error" error toast, while the snapshot error field is
cleared to none (the room is still recorded). -/
theorem roomReady_sameSides_toast_not_error (st : HookState)
    (data : RoomReadyPayload) (p1 p2 : Player)
    (hp : data.playersField = some [p1, p2]) (hs : p1.side = p2.side) :
    Toast.mk ToastKind.error "same-side-error" ∈ (processRoomReady st data).2 ∧
    (processRoomReady st data).1.error = none := by
  unfold processRoomReady
  rw [hp]
  simp [hs]

/-- Concrete witness for `roomReady_sameSides_toast_not_error`: the
sample same-side payload over the errored snapshot. -/
theorem roomReady_sameSides_toast_not_error_witness :
    Toast.mk ToastKind.error "same-side-error" ∈
      (processRoomReady erroredState sameSidePayload).2 ∧
    (processRoomReady erroredState sameSidePayload).1.error = none :=
  roomReady_sameSides_toast_not_error erroredState sameSidePayload
    (samplePlayer "Alice" Side.heads) (samplePlayer "Bob" Side.heads) rfl rfl

/-- Claim C3: `joinRoom` with a code of length other than 6, or with a
code whose uppercase form matches the room already in the snapshot,
emits no outbound event and sets one of the two local validation
errors. -/
theorem joinRoom_rejects_locally (st : HookState) (code : String)
    (name : Option String)
    (h : code.length ≠ 6 ∨ ∃ r, st.room = some r ∧ r.code = jsToUpperCase code) :
    (joinRoom st code name).2.1 = [] ∧
    ((joinRoom st code name).1.error = some invalidCodeMsg ∨
     (joinRoom st code name).1.error = some alreadyInRoomMsg) := by
  by_cases h6 : code.length = 6
  · rcases h with h | ⟨r, hr, hc⟩
    · exact absurd h6 h
    · unfold joinRoom
      simp [h6, hr, hc]
  · unfold joinRoom
    simp [h6]

/-- Concrete witness for `joinRoom_rejects_locally`, covering both rejection
branches: a 3-character code, and a code matching the current room. -/
theorem joinRoom_rejects_locally_witness :
    ((joinRoom { room := some sampleRoom, isConnected := true, socketAlive := true }
        "ABC" none).2.1 = [] ∧
     ((joinRoom { room := some sampleRoom, isConnected := true, socketAlive := true }
        "ABC" none).1.error = some invalidCodeMsg ∨
      (joinRoom { room := some sampleRoom, isConnected := true, socketAlive := true }
        "ABC" none).1.error = some alreadyInRoomMsg)) ∧
    ((joinRoom { room := some sampleRoom, isConnected := true, socketAlive := true }
        "abc123" none).2.1 = [] ∧
     ((joinRoom { room := some sampleRoom, isConnected := true, socketAlive := true }
        "abc123" none).1.error = some invalidCodeMsg ∨
      (joinRoom { room := some sampleRoom, isConnected := true, socketAlive := true }
        "abc123" none).1.error = some alreadyInRoomMsg)) :=
  ⟨joinRoom_rejects_locally _ "ABC" none (Or.inl (by decide)),
   joinRoom_rejects_locally _ "abc123" none
     (Or.inr ⟨sampleRoom, rfl, by decide⟩)⟩

/-- Claim C8: inbound `error` / `join_room_error` events whose payload is
null / undefined or an object with no keys leave the snapshot untouched
and surface no user-facing message. -/
theorem empty_error_payloads_ignored (st : HookState) :
    processError st ErrorData.null = (st, []) ∧
    processError st (ErrorData.obj []) = (st, []) ∧
    processJoinRoomError st ErrorData.null = (st, []) ∧
    processJoinRoomError st (ErrorData.obj []) = (st, []) :=
  ⟨rfl, rfl, rfl, rfl⟩

/-- Claim C9: `clearRoom` empties the room and error fields of the
snapshot while leaving the connection-owned fields (`isConnected`, the
live socket, `reconnectAttempts`) unchanged. -/
theorem clearRoom_clears_only_room_state (st : HookState) :
    (clearRoom st).room = none ∧ (clearRoom st).error = none ∧
    (clearRoom st).isConnected = st.isConnected ∧
    (clearRoom st).socketAlive = st.socketAlive ∧
    (clearRoom st).reconnectAttempts = st.reconnectAttempts :=
  ⟨rfl, rfl, rfl, rfl, rfl⟩

/-- Claim C10: on `coin_flip_started`, a null room stays null (no
placeholder is fabricated), and a non-null room gets status flipping
with every other room field unchanged. -/
theorem coinFlipStarted_flips_only_status (st : HookState) :
    (st.room = none → (processCoinFlipStarted st).1.room = none) ∧
    (∀ r, st.room = some r →
      (processCoinFlipStarted st).1.room =
        some { r with status := RoomStatus.flipping }) := by
  constructor
  · intro h
    simp [processCoinFlipStarted, h]
  · intro r h
    simp [processCoinFlipStarted, h]

/-- Concrete witness for `coinFlipStarted_flips_only_status`: applied to a
snapshot holding `sampleRoom`. -/
theorem coinFlipStarted_flips_only_status_witness :
    (processCoinFlipStarted { room := some sampleRoom }).1.room =
      some { sampleRoom with status := RoomStatus.flipping } :=
  (coinFlipStarted_flips_only_status { room := some sampleRoom }).2
    sampleRoom rfl

end Coinflip
